import Mathlib

/-!
Verification of the core of `scpiclient` (`src/main.rs`): the query
classifier `is_query`, the exchange engine `write_cmd` /
`read_until_terminator`, and the liveness monitor `try_peek` /
`start_heartbeat`.  Rust strings are modelled at the character level
(`List Char` under Lean `String`), the TCP transport as an explicit
record of the bytes written, reads performed and the outcome the peer
will produce for the next read.
-/

namespace Scpi

/-- Rust `char::is_whitespace` (Unicode `White_Space` property). -/
def isRustWhitespace (c : Char) : Bool :=
  c.toNat = 0x09 || c.toNat = 0x0A || c.toNat = 0x0B || c.toNat = 0x0C ||
  c.toNat = 0x0D || c.toNat = 0x20 || c.toNat = 0x85 || c.toNat = 0xA0 ||
  c.toNat = 0x1680 || (0x2000 ≤ c.toNat && c.toNat ≤ 0x200A) ||
  c.toNat = 0x2028 || c.toNat = 0x2029 || c.toNat = 0x202F ||
  c.toNat = 0x205F || c.toNat = 0x3000

/-- Rust `str::trim`: remove whitespace from both ends of a character list. -/
def trimChars (l : List Char) : List Char :=
  ((l.dropWhile isRustWhitespace).reverse.dropWhile isRustWhitespace).reverse

/-- Rust `str::trim` lifted to `String`. -/
def rustTrim (s : String) : String :=
  ⟨trimChars s.data⟩

/-- Rust `str::split(" ")`: split on every occurrence of the literal space
character, keeping empty fragments (`""` yields `[""]`). -/
def splitSp : List Char → List (List Char)
  | [] => [[]]
  | c :: rest =>
    if c = ' ' then [] :: splitSp rest
    else
      let r := splitSp rest
      (c :: r.headD []) :: r.tail

/-- `src/main.rs` lines 87-99, at the character level:
`command.split(" ").collect().first().unwrap().trim().ends_with("?")`,
with the empty string short-circuited to `false`. -/
def isQueryChars (command : List Char) : Bool :=
  if command.isEmpty then false
  else (trimChars ((splitSp command).headD [])).getLast? = some '?'

/-- `src/main.rs` `is_query`, on Lean strings. -/
def is_query (command : String) : Bool :=
  isQueryChars command.data

/-- The classifier as the spec words it: first space-delimited token
(`takeWhile (· ≠ ' ')`), trimmed, ends with `?`; empty string is false. -/
def isQuerySpecChars (command : List Char) : Bool :=
  !command.isEmpty &&
    (trimChars (command.takeWhile (fun c => c ≠ ' '))).getLast? = some '?'

/-- The spec's classifier on Lean strings. -/
def isQuerySpec (command : String) : Bool :=
  isQuerySpecChars command.data

theorem splitSp_ne_nil (l : List Char) : splitSp l ≠ [] := by
  cases l with
  | nil => simp [splitSp]
  | cons c rest =>
    by_cases h : c = ' ' <;> simp [splitSp, h]

theorem splitSp_headD (l : List Char) :
    (splitSp l).headD [] = l.takeWhile (fun c => c ≠ ' ') := by
  induction l with
  | nil => simp [splitSp]
  | cons c rest ih =>
    by_cases h : c = ' '
    · simp [splitSp, h, List.takeWhile_cons]
    · simp only [ne_eq, decide_not, List.headD_eq_head?] at ih ⊢
      simp [splitSp, h, List.takeWhile_cons, ih]

theorem isQueryChars_eq_spec (l : List Char) :
    isQueryChars l = isQuerySpecChars l := by
  unfold isQueryChars isQuerySpecChars
  rw [splitSp_headD]
  cases l <;> simp

/-- Outcome the transport will produce for the next bounded line read:
the peer's reply line (as `read_line` leaves it in the buffer), a
deadline expiry, or a read error. -/
inductive ReadOutcome
  | line (text : String)
  | timeout
  | ioError (msg : String)
deriving DecidableEq

/-- The shared duplex transport, observed through the exchange engine:
the wire strings written so far, how many line reads were performed,
whether the next `write_all` fails (and with what message), and the
outcome of the next bounded read. -/
structure Conn where
  written : List String
  reads : Nat
  writeErr : Option String
  readOutcome : ReadOutcome
deriving DecidableEq

/-- A fresh healthy connection whose next read produces `o`. -/
def connOK (o : ReadOutcome) : Conn :=
  { written := [], reads := 0, writeErr := none, readOutcome := o }

/-- `src/main.rs` lines 110-123 `read_until_terminator`: one `read_line`
bounded by `timeout` seconds; the deadline expiry is surfaced with the
context string the source attaches, a read error with its own message. -/
def read_until_terminator (conn : Conn) (timeout : Nat) :
    Conn × Except String String :=
  let conn2 := { conn with reads := conn.reads + 1 }
  match conn.readOutcome with
  | .line text => (conn2, .ok text)
  | .timeout => (conn2, .error "Timed out waiting for query response")
  | .ioError msg => (conn2, .error msg)

/-- Rust `cmd_copy.ends_with('\n')` at the character level. -/
def ends_with_nl (s : String) : Bool :=
  s.data.getLast? = some '\n'

/-- `src/main.rs` lines 135-139: copy the command and push a `'\n'`
only when it does not already end with one. -/
def normalize_cmd (command : String) : String :=
  if ends_with_nl command then command else command ++ "\n"

/-- What one call to `write_cmd` produces: the transport afterwards, the
diagnostic lines printed to stderr (`eprintln!`), and the returned
`anyhow::Result<Option<String>>`. -/
structure ExchangeOutput where
  conn : Conn
  stderr : List String
  result : Except String (Option String)

/-- `src/main.rs` lines 126-156 `write_cmd`: classify, normalize, write
(a write failure propagates via `?` before any read), then for queries
perform one bounded read whose success is trimmed into `Some` and whose
failure is printed and absorbed into `Ok(None)`. -/
def write_cmd (conn : Conn) (command : String) (timeout : Nat) :
    ExchangeOutput :=
  match conn.writeErr with
  | some e => { conn := conn, stderr := [], result := .error e }
  | none =>
    let conn2 := { conn with written := conn.written ++ [normalize_cmd command] }
    if is_query command then
      match read_until_terminator conn2 timeout with
      | (conn3, .ok text) =>
        { conn := conn3, stderr := [], result := .ok (some (rustTrim text)) }
      | (conn3, .error err) =>
        { conn := conn3, stderr := [err], result := .ok none }
    else
      { conn := conn2, stderr := [], result := .ok none }

/-- Trailing-only trimming, as claim C4 words the success path
("trailing whitespace and line terminators trimmed"). -/
def rustTrimEnd (s : String) : String :=
  ⟨(s.data.reverse.dropWhile isRustWhitespace).reverse⟩

/-- The wire string ends in one `'\n'` not preceded by another `'\n'`. -/
def ends_with_exactly_one_nl (s : String) : Bool :=
  s.data.getLast? = some '\n' && !(s.data.dropLast.getLast? = some '\n')

/-- A read outcome on which `read_until_terminator` fails: the deadline
expired or the read itself errored. -/
def read_failed : ReadOutcome → Bool
  | .line _ => false
  | .timeout => true
  | .ioError _ => true

/-- What `poll_peek` reports when the monitor probes the socket:
would-block (open, no data), ready with `n` bytes (`0` = peer closed),
or an I/O error. -/
inductive PollPeek
  | pending
  | ready (n : Nat)
  | ioError (msg : String)
deriving DecidableEq

/-- `src/main.rs` lines 158-174 `try_peek`: a pending poll is answered
with `Ok(1)` ("lie to the poll function so it doesn't block"); a
completed poll is passed through. -/
def try_peek (p : PollPeek) : Except String Nat :=
  match p with
  | .pending => .ok 1
  | .ready n => .ok n
  | .ioError msg => .error msg

/-- Rust `Result::unwrap_or`. -/
def unwrap_or (r : Except String Nat) (d : Nat) : Nat :=
  match r with
  | .ok n => n
  | .error _ => d

/-- Observable effect of one heartbeat interval: the notice printed (if
any), whether raw terminal mode was restored, and the process exit
status (`none` = keep looping and sleep until the next interval). -/
structure HeartbeatStep where
  notice : Option String
  rawModeRestored : Bool
  exitCode : Option Nat
deriving DecidableEq

/-- `src/main.rs` lines 181-198, the body of one iteration of the
`start_heartbeat` loop: peek under the read lock; if
`size.unwrap_or(1) == 0`, print the disconnect notice, disable raw mode
and `exit(1)`; otherwise release the lock and sleep. -/
def heartbeat_step (p : PollPeek) : HeartbeatStep :=
  if unwrap_or (try_peek p) 1 = 0 then
    { notice := some "\nConnection lost.", rawModeRestored := true, exitCode := some 1 }
  else
    { notice := none, rawModeRestored := false, exitCode := none }

theorem normalize_of_not_nl (cmd : String) (h : ends_with_nl cmd = false) :
    normalize_cmd cmd = cmd ++ "\n" := by
  simp [normalize_cmd, h]

theorem data_append_nl (cmd : String) :
    (cmd ++ "\n").data = cmd.data ++ ['\n'] := by
  rw [String.data_append]

theorem ends_with_nl_normalize (cmd : String) :
    ends_with_nl (normalize_cmd cmd) = true := by
  by_cases h : ends_with_nl cmd = true
  · simp [normalize_cmd, h]
  · rw [normalize_of_not_nl cmd (by simpa using h)]
    simp [ends_with_nl, data_append_nl]

theorem exactly_one_nl_of_not_nl (cmd : String) (h : ends_with_nl cmd = false) :
    ends_with_exactly_one_nl (normalize_cmd cmd) = true := by
  rw [normalize_of_not_nl cmd h]
  unfold ends_with_exactly_one_nl
  rw [data_append_nl]
  unfold ends_with_nl at h
  simp [List.dropLast_concat]
  simpa using h

theorem write_cmd_written_eq (conn : Conn) (command : String) (t : Nat)
    (hw : conn.writeErr = none) :
    (write_cmd conn command t).conn.written
      = conn.written ++ [normalize_cmd command] := by
  cases hro : conn.readOutcome <;>
    by_cases hq : is_query command <;>
      simp [write_cmd, read_until_terminator, hw, hq, hro]

end Scpi

/-- Claim C1: for every non-empty command string, `is_query` returns true
iff the first space-delimited token (split on the literal space character
only, not general whitespace), after trimming surrounding whitespace, ends
with `?`; for the empty string it returns false. -/
theorem Scpi.is_query_matches_spec (s : String) :
    is_query s = isQuerySpec s :=
  isQueryChars_eq_spec s.data

/-- Claim C2 counterexample: the claim "for every input the transmitted
bytes end with exactly one line terminator" fails at the input
`"X?\n\n"`: the exchange transmits `"X?\n\n"` unchanged, which ends with
two line terminators. -/
theorem Scpi.write_cmd_exactly_one_nl_cex :
    (write_cmd (connOK ReadOutcome.timeout) "X?\n\n" 5).conn.written = ["X?\n\n"]
    ∧ ends_with_exactly_one_nl "X?\n\n" = false :=
  ⟨rfl, by decide⟩

/-- Claim C2 (amended): before any read, the exchange writes exactly the
command normalized by appending one `'\n'` only when the command does not
already end with one (`"X?"` and `"X?\n"` both yield wire bytes
`"X?\n"`); the transmitted bytes always end with a line terminator, and
with exactly one whenever the input did not already end with one. -/
theorem Scpi.write_cmd_writes_normalized (conn : Conn) (command : String) (t : Nat)
    (hw : conn.writeErr = none) :
    (write_cmd conn command t).conn.written
        = conn.written ++ [normalize_cmd command]
    ∧ ends_with_nl (normalize_cmd command) = true
    ∧ (ends_with_nl command = false →
        ends_with_exactly_one_nl (normalize_cmd command) = true)
    ∧ normalize_cmd "X?" = "X?\n" ∧ normalize_cmd "X?\n" = "X?\n" :=
  ⟨write_cmd_written_eq conn command t hw, ends_with_nl_normalize command,
    exactly_one_nl_of_not_nl command, by decide, by decide⟩

/-- Claim C2 witness at `command = "X?"` on a healthy connection. -/
theorem Scpi.write_cmd_writes_normalized_witness :
    (write_cmd (connOK ReadOutcome.timeout) "X?" 5).conn.written
        = (connOK ReadOutcome.timeout).written ++ [normalize_cmd "X?"]
    ∧ ends_with_nl (normalize_cmd "X?") = true
    ∧ (ends_with_nl "X?" = false →
        ends_with_exactly_one_nl (normalize_cmd "X?") = true)
    ∧ normalize_cmd "X?" = "X?\n" ∧ normalize_cmd "X?\n" = "X?\n" :=
  write_cmd_writes_normalized (connOK ReadOutcome.timeout) "X?" 5 rfl

/-- Claim C3: for a command classified as a non-query, a successful
exchange performs no read on the connection, prints no diagnostic, and
returns `Ok(None)`. -/
theorem Scpi.write_cmd_non_query (conn : Scpi.Conn) (command : String) (t : Nat)
    (hw : conn.writeErr = none) (hq : is_query command = false) :
    (write_cmd conn command t).result = .ok none
    ∧ (write_cmd conn command t).conn.reads = conn.reads
    ∧ (write_cmd conn command t).stderr = [] := by
  refine ⟨?_, ?_, ?_⟩ <;> simp [write_cmd, hw, hq]

/-- Claim C3 witness at the non-query command `"*RST"`. -/
theorem Scpi.write_cmd_non_query_witness :
    (write_cmd (connOK ReadOutcome.timeout) "*RST" 5).result = .ok none
    ∧ (write_cmd (connOK ReadOutcome.timeout) "*RST" 5).conn.reads
        = (connOK ReadOutcome.timeout).reads
    ∧ (write_cmd (connOK ReadOutcome.timeout) "*RST" 5).stderr = [] :=
  write_cmd_non_query (connOK ReadOutcome.timeout) "*RST" 5 rfl (by decide)

/-- Claim C4 counterexample: the claim "returns Some of the response line
with trailing whitespace and line terminators trimmed" fails when the
reply line has leading whitespace: for the reply `" 123\n"` the code
returns `Some("123")` (both ends trimmed), not the trailing-only trim
`" 123"`. -/
theorem Scpi.write_cmd_trailing_trim_cex :
    (write_cmd (connOK (ReadOutcome.line " 123\n")) "QUERY?" 5).result
        = .ok (some "123")
    ∧ rustTrimEnd " 123\n" = " 123"
    ∧ (" 123" : String) ≠ "123" :=
  ⟨rfl, by decide, by decide⟩

/-- Claim C4 (amended): when a query command's read succeeds within the
deadline, the exchange returns `Some` of the response line with
surrounding (leading and trailing) whitespace and line terminators
trimmed; concretely, for a transport that replies `"123\n"`, exchanging
`"QUERY?"` writes `"QUERY?\n"` and returns `Some("123")`. -/
theorem Scpi.write_cmd_query_success (conn : Scpi.Conn) (command : String)
    (t : Nat) (text : String) (hw : conn.writeErr = none)
    (hq : is_query command = true) (hr : conn.readOutcome = .line text) :
    (write_cmd conn command t).result = .ok (some (rustTrim text))
    ∧ (write_cmd (connOK (ReadOutcome.line "123\n")) "QUERY?" 5).result
        = .ok (some "123")
    ∧ (write_cmd (connOK (ReadOutcome.line "123\n")) "QUERY?" 5).conn.written
        = ["QUERY?\n"] := by
  refine ⟨?_, rfl, rfl⟩
  simp [write_cmd, read_until_terminator, hw, hq, hr]

/-- Claim C4 witness at the mock transport of the source's `response`
test: reply `"123\n"`, command `"QUERY?"`. -/
theorem Scpi.write_cmd_query_success_witness :
    (write_cmd (connOK (ReadOutcome.line "123\n")) "QUERY?" 5).result
        = .ok (some (rustTrim "123\n"))
    ∧ (write_cmd (connOK (ReadOutcome.line "123\n")) "QUERY?" 5).result
        = .ok (some "123")
    ∧ (write_cmd (connOK (ReadOutcome.line "123\n")) "QUERY?" 5).conn.written
        = ["QUERY?\n"] :=
  write_cmd_query_success (connOK (ReadOutcome.line "123\n")) "QUERY?" 5
    "123\n" rfl (by decide) rfl

/-- Claim C5: for a query command whose bounded read fails — deadline
expiry or a non-timeout read error alike — the exchange is not fatal: it
prints a diagnostic and returns `Ok(None)`, so the session continues. -/
theorem Scpi.write_cmd_read_failure_recoverable (conn : Scpi.Conn)
    (command : String) (t : Nat) (hw : conn.writeErr = none)
    (hq : is_query command = true) (hr : read_failed conn.readOutcome = true) :
    (write_cmd conn command t).result = .ok none
    ∧ (write_cmd conn command t).stderr ≠ [] := by
  cases hro : conn.readOutcome with
  | line text => rw [hro] at hr; exact absurd hr (by simp [read_failed])
  | timeout => refine ⟨?_, ?_⟩ <;> simp [write_cmd, read_until_terminator, hw, hq, hro]
  | ioError msg => refine ⟨?_, ?_⟩ <;> simp [write_cmd, read_until_terminator, hw, hq, hro]

/-- Claim C5 witness: a timed-out read of the query `"*IDN?"`. -/
theorem Scpi.write_cmd_read_failure_recoverable_witness :
    (write_cmd (connOK ReadOutcome.timeout) "*IDN?" 5).result = .ok none
    ∧ (write_cmd (connOK ReadOutcome.timeout) "*IDN?" 5).stderr ≠ [] :=
  write_cmd_read_failure_recoverable (connOK ReadOutcome.timeout) "*IDN?" 5
    rfl (by decide) rfl

/-- Claim C6: a write failure is always propagated by the exchange as an
error carrying the transport's message — never converted to `Ok(None)`
or swallowed — and no read is attempted after the failed write. -/
theorem Scpi.write_cmd_write_failure_fatal (conn : Scpi.Conn) (command : String)
    (t : Nat) (e : String) (hw : conn.writeErr = some e) :
    (write_cmd conn command t).result = .error e
    ∧ (write_cmd conn command t).conn.reads = conn.reads
    ∧ (write_cmd conn command t).stderr = [] := by
  refine ⟨?_, ?_, ?_⟩ <;> simp [write_cmd, hw]

/-- Claim C6 witness: a broken transport under the query `"*IDN?"` (even
a query performs no read once the write fails). -/
theorem Scpi.write_cmd_write_failure_fatal_witness :
    (write_cmd ⟨[], 0, some "broken pipe", ReadOutcome.line "123\n"⟩ "*IDN?" 5).result
        = .error "broken pipe"
    ∧ (write_cmd ⟨[], 0, some "broken pipe", ReadOutcome.line "123\n"⟩ "*IDN?" 5).conn.reads
        = (⟨[], 0, some "broken pipe", ReadOutcome.line "123\n"⟩ : Scpi.Conn).reads
    ∧ (write_cmd ⟨[], 0, some "broken pipe", ReadOutcome.line "123\n"⟩ "*IDN?" 5).stderr
        = [] :=
  write_cmd_write_failure_fatal ⟨[], 0, some "broken pipe", ReadOutcome.line "123\n"⟩
    "*IDN?" 5 "broken pipe" rfl

/-- Claim C7: a peek completing with 0 bytes (peer closed) makes the
monitor print the disconnect notice, restore terminal state, and exit
the process with the non-zero status 1; a peek that would block (open
connection, no data) is treated as success and the loop continues. -/
theorem Scpi.heartbeat_disconnect_fatal :
    heartbeat_step (PollPeek.ready 0)
        = { notice := some "\nConnection lost.", rawModeRestored := true,
            exitCode := some 1 }
    ∧ (heartbeat_step (PollPeek.ready 0)).exitCode ≠ some 0
    ∧ heartbeat_step PollPeek.pending
        = { notice := none, rawModeRestored := false, exitCode := none } :=
  ⟨rfl, by decide, rfl⟩

/-- Claim C9: every command not already ending in `'\n'` — the empty
string included — still causes a write of the command plus `'\n'`;
exchanging the empty command transmits the single byte `"\n"` and
returns `Ok(None)` because `""` is classified as a non-query. -/
theorem Scpi.write_cmd_empty_command (conn : Scpi.Conn) (command : String)
    (t : Nat) (hw : conn.writeErr = none) (hn : ends_with_nl command = false) :
    (write_cmd conn command t).conn.written = conn.written ++ [command ++ "\n"]
    ∧ (write_cmd (connOK ReadOutcome.timeout) "" 5).conn.written = ["\n"]
    ∧ (write_cmd (connOK ReadOutcome.timeout) "" 5).result = .ok none
    ∧ is_query "" = false := by
  refine ⟨?_, rfl, rfl, rfl⟩
  rw [write_cmd_written_eq conn command t hw, normalize_of_not_nl command hn]

/-- Claim C9 witness at the empty command itself. -/
theorem Scpi.write_cmd_empty_command_witness :
    (write_cmd (connOK ReadOutcome.timeout) "" 5).conn.written
        = (connOK ReadOutcome.timeout).written ++ ["" ++ "\n"]
    ∧ (write_cmd (connOK ReadOutcome.timeout) "" 5).conn.written = ["\n"]
    ∧ (write_cmd (connOK ReadOutcome.timeout) "" 5).result = .ok none
    ∧ is_query "" = false :=
  write_cmd_empty_command (connOK ReadOutcome.timeout) "" 5 rfl (by decide)

/-- Claim C10: the monitor's step exits the process exactly when the peek
completes successfully with 0 bytes; in particular a peek error leaves
the monitor looping (it is folded to 1 by `unwrap_or`), so the monitor
never exits on a peek error. -/
theorem Scpi.heartbeat_exit_iff_zero_peek (p : Scpi.PollPeek) :
    ((heartbeat_step p).exitCode.isSome = true ↔ p = PollPeek.ready 0)
    ∧ (∀ msg, heartbeat_step (PollPeek.ioError msg)
        = { notice := none, rawModeRestored := false, exitCode := none }) := by
  constructor
  · cases p with
    | pending => simp [heartbeat_step, try_peek, unwrap_or]
    | ready n => cases n <;> simp [heartbeat_step, try_peek, unwrap_or]
    | ioError msg => simp [heartbeat_step, try_peek, unwrap_or]
  · intro msg
    rfl
